import Mathlib

/-! # A shallow embedding of the StockAgent tool-calling session

Definitions below model `StockAgent.py` (the tool registry, dispatcher, search
result extractor, observation slot mapper and session driver) and `server.py`
(the four calculation endpoints).  Conventions of the embedding:

* Python floats are modeled as rationals (`ℚ`); every numeric literal the
  program handles has an exact decimal reading.
* Python `None` is `Option.none`.
* An exception that escapes a modeled function is made explicit: a `KeyError`
  escaping `tool_handler` is `Option.none`, and a `ZeroDivisionError` raised by
  a calculation endpoint (which FastAPI turns into an HTTP 500 and
  `post_to_mcp` hands back as an `{"error": ...}` payload, so that the
  subsequent subscript in `StockAgent.py` raises `KeyError`) is
  `Except.error`.
* A JSON object whose fields matter is a structure with `Option` fields for
  keys that may be missing; the compare endpoint's response object is an
  association list of its string fields.
-/

namespace StockAgent

/-- One organic search result entry; the Python dict may lack the
`"snippet"` key, hence the `Option`. -/
structure OrganicResult where
  snippet : Option String
  deriving DecidableEq

/-- A raw search payload.  `organic_results` is `none` for a payload without
that key (for instance the `{"error": ...}` payload `serpapi_search` returns
on a transport failure); `result_json.get("organic_results", [])` supplies
`[]` in that case. -/
structure SearchPayload where
  organic_results : Option (List OrganicResult)
  deriving DecidableEq

/-- Digits-to-number accumulator for a matched run of ASCII digits. -/
def digitsToNat (ds : List Char) : Nat :=
  ds.foldl (fun n c => 10 * n + (c.toNat - 48)) 0

/-- Numeric value of a regex match: integer digits plus an optional
one-or-two digit fractional part, read exactly (Python then applies
`float(...)` to the matched text). -/
def currencyValue (intPart fracPart : List Char) : ℚ :=
  (digitsToNat intPart : ℚ) + (digitsToNat fracPart : ℚ) / (10 ^ fracPart.length : ℚ)

/-- First match of the regex `\$([0-9]+(?:\.[0-9]{1,2})?)` in the text, as
`re.findall(...)[0]` produces it: scan left to right for a `$` followed by at
least one digit, take the maximal digit run, then — only when a `.` follows
with at least one further digit — up to two fractional digits. -/
def scanDollar : List Char → Option ℚ
  | [] => none
  | c :: rest =>
    if c = '$' then
      let ds := rest.takeWhile Char.isDigit
      if ds = [] then scanDollar rest
      else
        let after := rest.dropWhile Char.isDigit
        let fracPart :=
          match after with
          | '.' :: fs => (fs.takeWhile Char.isDigit).take 2
          | _ => []
        some (currencyValue ds fracPart)
    else scanDollar rest

/-- The text blob `full_text` of `extract_price_or_dividend`: the snippets of
the organic result entries, in order, joined by single spaces (entries without
a `"snippet"` key are skipped). -/
def joinSnippets (result_json : SearchPayload) : String :=
  String.intercalate " "
    ((result_json.organic_results.getD []).filterMap OrganicResult.snippet)

/-- `extract_price_or_dividend` (StockAgent.py lines 143–150): join the
snippets, scan for the first currency match, return it as a number, or `none`
when no match exists. -/
def extract_price_or_dividend (result_json : SearchPayload) : Option ℚ :=
  scanDollar (joinSnippets result_json).toList

/-- `calc_price_return` (server.py lines 35–37):
`(final_price - initial_price) / initial_price * 100`.  Python raises
`ZeroDivisionError` when `initial_price = 0`; the raised-and-propagated error
is modeled as `Except.error`. -/
def calc_price_return (initial_price final_price : ℚ) : Except String ℚ :=
  if initial_price = 0 then Except.error "ZeroDivisionError"
  else Except.ok ((final_price - initial_price) / initial_price * 100)

/-- `calc_dividend_yield` (server.py lines 44–46):
`dividend_total / initial_price * 100`, raising on a zero initial price. -/
def calc_dividend_yield (dividend_total initial_price : ℚ) : Except String ℚ :=
  if initial_price = 0 then Except.error "ZeroDivisionError"
  else Except.ok (dividend_total / initial_price * 100)

/-- `calc_total_return` (server.py lines 53–55): plain addition, never
fails. -/
def calc_total_return (price_return dividend_yield : ℚ) : Except String ℚ :=
  Except.ok (price_return + dividend_yield)

/-- Model of Python's fixed-point rendering `f"{x:.2f}"`: the value scaled by
100 and rounded to an integer, printed with exactly two fractional digits. -/
def fmt2 (x : ℚ) : String :=
  let n : Int := round (x * 100)
  let m := n.natAbs
  (if n < 0 then "-" else "") ++ toString (m / 100) ++ "." ++
    (if m % 100 < 10 then "0" else "") ++ toString (m % 100)

/-- The `winner` local of `compare` (server.py lines 66–67):
`data.stock_a_name if diff > 0 else data.stock_b_name` where
`diff = data.stock_a_return - data.stock_b_return`. -/
def compareWinner (stock_a_name : String) (stock_a_return : ℚ)
    (stock_b_name : String) (stock_b_return : ℚ) : String :=
  if stock_a_return - stock_b_return > 0 then stock_a_name else stock_b_name

/-- The f-string built by `compare` (server.py line 69). -/
def compareSummary (stock_a_name : String) (stock_a_return : ℚ)
    (stock_b_name : String) (stock_b_return : ℚ) : String :=
  compareWinner stock_a_name stock_a_return stock_b_name stock_b_return ++
    " outperformed by " ++ fmt2 |stock_a_return - stock_b_return| ++
    "%. Total returns were: " ++ stock_a_name ++ " = " ++ fmt2 stock_a_return ++
    "%, " ++ stock_b_name ++ " = " ++ fmt2 stock_b_return ++ "%."

/-- `compare` (server.py lines 64–70): the endpoint's response object, an
association list of its string fields.  The Python dict literal has the single
key `"summary"`. -/
def compare (stock_a_name : String) (stock_a_return : ℚ)
    (stock_b_name : String) (stock_b_return : ℚ) : List (String × String) :=
  [("summary", compareSummary stock_a_name stock_a_return stock_b_name stock_b_return)]

/-- Winner as `spec.md` §4.5 words it: the name with the larger total return,
an exact tie resolved toward the second ("B") operand. -/
def winnerSpec (stock_a_name : String) (stock_a_return : ℚ)
    (stock_b_name : String) (stock_b_return : ℚ) : String :=
  if stock_a_return > stock_b_return then stock_a_name else stock_b_name

/-- One entry of the `tools` registry (StockAgent.py lines 43–123): name,
description, declared parameter names and the schema's required list. -/
structure ToolDefinition where
  name : String
  description : String
  paramNames : List String
  requiredParams : List String
  deriving DecidableEq

/-- The tool registry `tools` (StockAgent.py lines 43–123). -/
def tools : List ToolDefinition :=
  [⟨"search_stock_data",
    "General SerpAPI (Google) search for any stock or dividend info.",
    ["query"], ["query"]⟩,
   ⟨"calculate_price_return",
    "Calculate price return from initial and final prices.",
    ["initial_price", "final_price"], ["initial_price", "final_price"]⟩,
   ⟨"calculate_dividend_yield",
    "Calculate dividend yield from total dividend and initial price.",
    ["dividend_total", "initial_price"], ["dividend_total", "initial_price"]⟩,
   ⟨"calculate_total_return",
    "Calculate total return from price return and dividend yield.",
    ["price_return", "dividend_yield"], ["price_return", "dividend_yield"]⟩,
   ⟨"compare_returns",
    "Compare total returns between two stocks.",
    ["stock_a_name", "stock_a_return", "stock_b_name", "stock_b_return"],
    ["stock_a_name", "stock_a_return", "stock_b_name", "stock_b_return"]⟩]

/-- The names registered in the tool registry (and, identically, the keys of
the `dispatch` dict in `tool_handler`). -/
def registeredToolNames : List String := tools.map ToolDefinition.name

/-- An argument mapping for a tool call: the union of all parameter names the
five tools accept, each optional since a JSON object may omit any key. -/
structure ToolArguments where
  query : List String := []
  initial_price : Option ℚ := none
  final_price : Option ℚ := none
  dividend_total : Option ℚ := none
  price_return : Option ℚ := none
  dividend_yield : Option ℚ := none
  stock_a_name : Option String := none
  stock_a_return : Option ℚ := none
  stock_b_name : Option String := none
  stock_b_return : Option ℚ := none
  deriving DecidableEq

/-- Result of one dispatched tool call: a list of raw search payloads for the
search tool, or the calculation endpoint's JSON response (a single numeric
field, the compare summary, or an `{"error": ...}` payload from
`post_to_mcp`). -/
inductive ToolResult where
  | searchResults (payloads : List SearchPayload)
  | mcpNumber (key : String) (value : ℚ)
  | mcpSummary (summary : String)
  | mcpError (msg : String)
  deriving DecidableEq

/-- `post_to_mcp "price-return"`: pydantic rejects a request missing a field
(`post_to_mcp` then returns the `{"error": ...}` payload), otherwise the
endpoint computes; a `ZeroDivisionError` likewise comes back as an error
payload. -/
def mcp_price_return (a : ToolArguments) : ToolResult :=
  match a.initial_price, a.final_price with
  | some i, some f =>
    match calc_price_return i f with
    | Except.ok v => ToolResult.mcpNumber "price_return" v
    | Except.error e => ToolResult.mcpError e
  | _, _ => ToolResult.mcpError "422 Unprocessable Entity"

/-- `post_to_mcp "dividend-yield"`, as for `mcp_price_return`. -/
def mcp_dividend_yield (a : ToolArguments) : ToolResult :=
  match a.dividend_total, a.initial_price with
  | some d, some i =>
    match calc_dividend_yield d i with
    | Except.ok v => ToolResult.mcpNumber "dividend_yield" v
    | Except.error e => ToolResult.mcpError e
  | _, _ => ToolResult.mcpError "422 Unprocessable Entity"

/-- `post_to_mcp "total-return"`, as for `mcp_price_return`. -/
def mcp_total_return (a : ToolArguments) : ToolResult :=
  match a.price_return, a.dividend_yield with
  | some p, some d =>
    match calc_total_return p d with
    | Except.ok v => ToolResult.mcpNumber "total_return" v
    | Except.error e => ToolResult.mcpError e
  | _, _ => ToolResult.mcpError "422 Unprocessable Entity"

/-- `post_to_mcp "compare"`. -/
def mcp_compare (a : ToolArguments) : ToolResult :=
  match a.stock_a_name, a.stock_a_return, a.stock_b_name, a.stock_b_return with
  | some an, some ar, some bn, some br =>
    ToolResult.mcpSummary (compareSummary an ar bn br)
  | _, _, _, _ => ToolResult.mcpError "422 Unprocessable Entity"

/-- `tool_handler` (StockAgent.py lines 129–137).  Python evaluates
`dispatch[name](arguments)` on a five-key dict literal; a `name` outside those
five keys raises `KeyError`, modeled as `none`.  The search branch maps the
ambient search provider `searchFn` over the query list. -/
def tool_handler (searchFn : String → SearchPayload) (name : String)
    (arguments : ToolArguments) : Option ToolResult :=
  if name = "search_stock_data" then
    some (ToolResult.searchResults (arguments.query.map searchFn))
  else if name = "calculate_price_return" then some (mcp_price_return arguments)
  else if name = "calculate_dividend_yield" then some (mcp_dividend_yield arguments)
  else if name = "calculate_total_return" then some (mcp_total_return arguments)
  else if name = "compare_returns" then some (mcp_compare arguments)
  else none

/-- The six observation slots, named as the Python locals are
(StockAgent.py lines 198–199). -/
structure StockMetrics where
  aapl_init : Option ℚ
  aapl_final : Option ℚ
  msft_init : Option ℚ
  msft_final : Option ℚ
  aapl_div : Option ℚ
  msft_div : Option ℚ
  deriving DecidableEq

/-- The state after `aapl_init = aapl_final = ... = None` (lines 198–199). -/
def emptyMetrics : StockMetrics := ⟨none, none, none, none, none, none⟩

/-- The `if i == 0: ... elif i == 5: ...` chain of the search-handling loop
(StockAgent.py lines 212–217): position `i` of a search result list is written
to its slot; any `i ≥ 6` falls through every branch and changes nothing. -/
def assignSlot (m : StockMetrics) (i : Nat) (val : Option ℚ) : StockMetrics :=
  if i = 0 then { m with aapl_init := val }
  else if i = 1 then { m with aapl_final := val }
  else if i = 2 then { m with msft_init := val }
  else if i = 3 then { m with msft_final := val }
  else if i = 4 then { m with aapl_div := val }
  else if i = 5 then { m with msft_div := val }
  else m

/-- Slot lookup by the positional role index `0..5`. -/
def roleGet (m : StockMetrics) : Nat → Option ℚ
  | 0 => m.aapl_init
  | 1 => m.aapl_final
  | 2 => m.msft_init
  | 3 => m.msft_final
  | 4 => m.aapl_div
  | 5 => m.msft_div
  | _ => none

/-- The `for i, item in enumerate(result)` loop body (StockAgent.py lines
209–217), started at counter value `i`: extract each payload and assign it to
the slot of its position. -/
def processItems (m : StockMetrics) (i : Nat) : List SearchPayload → StockMetrics
  | [] => m
  | p :: rest => processItems (assignSlot m i (extract_price_or_dividend p)) (i + 1) rest

/-- Handling of one `search_stock_data` result (the enumerate loop from 0). -/
def processSearchResult (m : StockMetrics) (items : List SearchPayload) : StockMetrics :=
  processItems m 0 items

/-- The metrics state after the driver's loop over all tool calls
(StockAgent.py lines 201–217): each element of `resultLists` is the payload
list one `search_stock_data` call returned, in call order; calls to the other
tools leave the metrics untouched. -/
def processAllSearches (m : StockMetrics) (resultLists : List (List SearchPayload)) : StockMetrics :=
  resultLists.foldl processSearchResult m

/-- Python truthiness of one slot, as `all(required)` tests it: `None` is
falsy, and so is the float `0.0`. -/
def truthy : Option ℚ → Bool
  | none => false
  | some x => decide (x ≠ 0)

/-- The completeness gate `all(required)` over the six slots (StockAgent.py
lines 219–220). -/
def isComplete (m : StockMetrics) : Bool :=
  truthy m.aapl_init && truthy m.aapl_final && truthy m.msft_init &&
    truthy m.msft_final && truthy m.aapl_div && truthy m.msft_div

/-- The calculation chain (StockAgent.py lines 224–259): each step goes
through `tool_handler`/`post_to_mcp` to the server endpoint and its response
is immediately subscripted (`[...]["price_return"]` and so on), so an error
payload raises `KeyError` — modeled as error propagation through `Except`. -/
def runChain (aapl_init aapl_final msft_init msft_final aapl_div msft_div : ℚ) :
    Except String (List (String × String)) := do
  let aapl_price_ret ← calc_price_return aapl_init aapl_final
  let aapl_div_yield ← calc_dividend_yield aapl_div aapl_init
  let aapl_total_return ← calc_total_return aapl_price_ret aapl_div_yield
  let msft_price_ret ← calc_price_return msft_init msft_final
  let msft_div_yield ← calc_dividend_yield msft_div msft_init
  let msft_total_return ← calc_total_return msft_price_ret msft_div_yield
  pure (compare "AAPL" aapl_total_return "MSFT" msft_total_return)

/-- The driver's terminal outcomes: no proposed tool calls (lines 193–195),
the `exit(1)` missing-data stop (lines 220–222), a completed comparison
(lines 254–265), or an uncaught exception escaping the chain. -/
inductive SessionOutcome where
  | noToolCalls
  | missingData
  | success (payload : List (String × String))
  | crashed (msg : String)
  deriving DecidableEq

/-- The session tail after all tool calls are processed (StockAgent.py lines
219–265): gate on `all(required)`, then run the calculation chain on the
unwrapped slot values. -/
def finishSession (m : StockMetrics) : SessionOutcome :=
  if isComplete m then
    match runChain (m.aapl_init.getD 0) (m.aapl_final.getD 0) (m.msft_init.getD 0)
        (m.msft_final.getD 0) (m.aapl_div.getD 0) (m.msft_div.getD 0) with
    | Except.ok payload => SessionOutcome.success payload
    | Except.error e => SessionOutcome.crashed e
  else SessionOutcome.missingData

/-- The whole post-model-exchange session (StockAgent.py lines 192–265): with
no proposed calls the driver stops in the no-op outcome; otherwise the search
results fill the slots and the gate decides. -/
def runSession (resultLists : List (List SearchPayload)) (hadCalls : Bool) : SessionOutcome :=
  if hadCalls then finishSession (processAllSearches emptyMetrics resultLists)
  else SessionOutcome.noToolCalls

/-- The payload of the last search call whose result list reaches position
`i`, if any: the characterization of what the overwriting loop leaves in a
slot. -/
def lastSlotPayload (resultLists : List (List SearchPayload)) (i : Nat) : Option SearchPayload :=
  (resultLists.reverse.find? (fun items => decide (i < items.length))).bind
    (fun items => items.get? i)

/-- A metrics state whose six roles all hold values, `aapl_init` holding the
float 0.0. -/
def mZeroA : StockMetrics := ⟨some 0, some 120, some 200, some 210, some 2, some 3⟩

/-- A metrics state with a zero initial price for AAPL and every other role
resolved to a nonzero value. -/
def mZeroC : StockMetrics := ⟨some 0, some 50, some 40, some 44, some 1, some 2⟩

/-- A metrics state with one unresolved role. -/
def mMissingB : StockMetrics := ⟨none, some 120, some 200, some 210, some 2, some 3⟩

/-- A fully resolved, all-nonzero metrics state (the spec's end-to-end
scenario values). -/
def mFullB : StockMetrics := ⟨some 100, some 120, some 200, some 210, some 2, some 3⟩

/-- Another fully resolved, all-nonzero metrics state. -/
def mFullC : StockMetrics := ⟨some 100, some 110, some 50, some 52, some 3, some 1⟩

/-- Six search payloads with no organic results. -/
def sixPayloads : List SearchPayload := [⟨none⟩, ⟨none⟩, ⟨none⟩, ⟨none⟩, ⟨none⟩, ⟨none⟩]

/-- A payload whose snippet carries a dollar amount. -/
def payloadHundred : SearchPayload := ⟨some [⟨some "AAPL traded at $100 a year ago"⟩]⟩

/-- A payload whose snippet carries no dollar amount. -/
def payloadNoMatch : SearchPayload := ⟨some [⟨some "no price data available"⟩]⟩

/-- An error payload: no `organic_results` key at all. -/
def errorPayload : SearchPayload := ⟨none⟩

/-! ## Helper lemmas -/

lemma truthy_eq_true (o : Option ℚ) : truthy o = true ↔ o ≠ none ∧ o ≠ some 0 := by
  cases o <;> simp [truthy]

lemma filterMap_snippet_filter (l : List OrganicResult) :
    (l.filter (fun e => e.snippet.isSome)).filterMap OrganicResult.snippet =
      l.filterMap OrganicResult.snippet := by
  induction l with
  | nil => rfl
  | cons a t ih =>
    cases h : a.snippet <;>
      simp [List.filter_cons, List.filterMap_cons, h, ih]

lemma runChain_ok (a1 a2 b1 b2 ad bd : ℚ) (ha : a1 ≠ 0) (hb : b1 ≠ 0) :
    runChain a1 a2 b1 b2 ad bd =
      Except.ok (compare "AAPL" ((a2 - a1) / a1 * 100 + ad / a1 * 100)
        "MSFT" ((b2 - b1) / b1 * 100 + bd / b1 * 100)) := by
  simp [runChain, calc_price_return, calc_dividend_yield, calc_total_return, ha, hb,
    Except.bind, bind, pure, Except.pure]

lemma finishSession_missing (m : StockMetrics) (h : isComplete m = false) :
    finishSession m = SessionOutcome.missingData := by
  simp [finishSession, h]

lemma finishSession_success (m : StockMetrics) (h : isComplete m = true) :
    ∃ p, finishSession m = SessionOutcome.success p := by
  have h' := h
  simp only [isComplete, Bool.and_eq_true] at h'
  obtain ⟨⟨⟨⟨⟨h1, h2⟩, h3⟩, h4⟩, h5⟩, h6⟩ := h'
  obtain ⟨x1, e1, hx1⟩ : ∃ x, m.aapl_init = some x ∧ x ≠ 0 := by
    rcases (truthy_eq_true _).mp h1 with ⟨hn, hz⟩
    rcases o : m.aapl_init with _ | x
    · exact absurd o hn
    · exact ⟨x, rfl, fun e => hz (by rw [o, e])⟩
  obtain ⟨x3, e3, hx3⟩ : ∃ x, m.msft_init = some x ∧ x ≠ 0 := by
    rcases (truthy_eq_true _).mp h3 with ⟨hn, hz⟩
    rcases o : m.msft_init with _ | x
    · exact absurd o hn
    · exact ⟨x, rfl, fun e => hz (by rw [o, e])⟩
  have hrw := runChain_ok x1 (m.aapl_final.getD 0) x3 (m.msft_final.getD 0)
    (m.aapl_div.getD 0) (m.msft_div.getD 0) hx1 hx3
  have heq : finishSession m = SessionOutcome.success (compare "AAPL"
      ((m.aapl_final.getD 0 - x1) / x1 * 100 + m.aapl_div.getD 0 / x1 * 100) "MSFT"
      ((m.msft_final.getD 0 - x3) / x3 * 100 + m.msft_div.getD 0 / x3 * 100)) := by
    simp only [finishSession, h, if_true, e1, e3, Option.getD_some, hrw]
  exact ⟨_, heq⟩

lemma processItems_high (l : List SearchPayload) :
    ∀ (m : StockMetrics) (i : Nat), 6 ≤ i → processItems m i l = m := by
  induction l with
  | nil => intro m i _; rfl
  | cons p rest ih =>
    intro m i hi
    have ha : assignSlot m i (extract_price_or_dividend p) = m := by
      unfold assignSlot
      rw [if_neg (by omega), if_neg (by omega), if_neg (by omega),
        if_neg (by omega), if_neg (by omega), if_neg (by omega)]
    show processItems (assignSlot m i (extract_price_or_dividend p)) (i + 1) rest = m
    rw [ha]
    exact ih m (i + 1) (by omega)

lemma processSearchResult_eq (m : StockMetrics) (items : List SearchPayload) :
    processSearchResult m items =
      ⟨(items.get? 0).elim m.aapl_init extract_price_or_dividend,
       (items.get? 1).elim m.aapl_final extract_price_or_dividend,
       (items.get? 2).elim m.msft_init extract_price_or_dividend,
       (items.get? 3).elim m.msft_final extract_price_or_dividend,
       (items.get? 4).elim m.aapl_div extract_price_or_dividend,
       (items.get? 5).elim m.msft_div extract_price_or_dividend⟩ := by
  match items with
  | [] => rfl
  | [p0] => rfl
  | [p0, p1] => rfl
  | [p0, p1, p2] => rfl
  | [p0, p1, p2, p3] => rfl
  | [p0, p1, p2, p3, p4] => rfl
  | p0 :: p1 :: p2 :: p3 :: p4 :: p5 :: rest =>
    show processItems _ 6 rest = _
    rw [processItems_high rest _ 6 le_rfl]
    rfl

lemma roleGet_processSearchResult (m : StockMetrics) (items : List SearchPayload)
    (i : Nat) (hi : i < 6) :
    roleGet (processSearchResult m items) i =
      (items.get? i).elim (roleGet m i) extract_price_or_dividend := by
  rw [processSearchResult_eq]
  interval_cases i <;> rfl

/-! ## Claims -/

/-- C1 (counterexample): a metrics state whose six roles all hold values —
`aapl_init` holding the float 0.0 — yet the completeness gate evaluates false
and the session stops in the missing-data outcome instead of invoking the
calculation chain. -/
theorem claim_C1_cex :
    mZeroA.aapl_init.isSome = true ∧ mZeroA.aapl_final.isSome = true ∧
    mZeroA.msft_init.isSome = true ∧ mZeroA.msft_final.isSome = true ∧
    mZeroA.aapl_div.isSome = true ∧ mZeroA.msft_div.isSome = true ∧
    isComplete mZeroA = false ∧ finishSession mZeroA = SessionOutcome.missingData :=
  ⟨rfl, rfl, rfl, rfl, rfl, rfl, rfl, rfl⟩

/-- C1 (amended): the gate `all(required)` tests Python truthiness, so it
passes exactly when every one of the six roles holds a nonzero value — a role
holding the float 0.0 fails the gate exactly as an absent role does; when the
gate fails the session stops with the missing-data failure before any
calculation step, and when it passes the calculation chain runs to a
successful comparison. -/
theorem claim_C1 (m : StockMetrics) :
    (isComplete m = true ↔
      ((m.aapl_init ≠ none ∧ m.aapl_init ≠ some 0) ∧
       (m.aapl_final ≠ none ∧ m.aapl_final ≠ some 0) ∧
       (m.msft_init ≠ none ∧ m.msft_init ≠ some 0) ∧
       (m.msft_final ≠ none ∧ m.msft_final ≠ some 0) ∧
       (m.aapl_div ≠ none ∧ m.aapl_div ≠ some 0) ∧
       (m.msft_div ≠ none ∧ m.msft_div ≠ some 0))) ∧
    (isComplete m = false → finishSession m = SessionOutcome.missingData) ∧
    (isComplete m = true → ∃ p, finishSession m = SessionOutcome.success p) := by
  refine ⟨?_, finishSession_missing m, finishSession_success m⟩
  simp only [isComplete, Bool.and_eq_true, truthy_eq_true]
  tauto

/-- C1 (witness): the gate implications applied at one incomplete and one
complete metrics state. -/
theorem claim_C1_witness :
    isComplete mMissingB = false ∧ finishSession mMissingB = SessionOutcome.missingData ∧
    isComplete mFullB = true ∧ ∃ p, finishSession mFullB = SessionOutcome.success p :=
  ⟨rfl, (claim_C1 mMissingB).2.1 rfl, rfl, (claim_C1 mFullB).2.2 rfl⟩

/-- C2 (counterexample): dispatching the unregistered name "get_quote"
produces no result at all: the Python dict subscript `dispatch[name]` raises
`KeyError` (modeled as `none`) instead of returning an "unknown tool" error
marker as data. -/
theorem claim_C2_cex :
    "get_quote" ∉ registeredToolNames ∧
    tool_handler (fun _ => ⟨none⟩) "get_quote" {} = none :=
  ⟨by decide, rfl⟩

/-- C2 (amended): for every name outside the five registered tools and every
argument mapping, `tool_handler` raises `KeyError` (modeled as `none`) — no
error-marker result is produced and the session is not protected from the
exception. -/
theorem claim_C2 (searchFn : String → SearchPayload) (name : String)
    (arguments : ToolArguments) (h : name ∉ registeredToolNames) :
    tool_handler searchFn name arguments = none := by
  simp only [registeredToolNames, tools, List.map, List.mem_cons, List.not_mem_nil,
    or_false, not_or] at h
  obtain ⟨h1, h2, h3, h4, h5⟩ := h
  simp [tool_handler, h1, h2, h3, h4, h5]

/-- C2 (witness): the amended dispatch behavior at the concrete unregistered
name "get_weather". -/
theorem claim_C2_witness :
    "get_weather" ∉ registeredToolNames ∧
    tool_handler (fun _ => ⟨none⟩) "get_weather" {} = none :=
  ⟨by decide, claim_C2 (fun _ => ⟨none⟩) "get_weather" {} (by decide)⟩

/-- C3 (counterexample): with the initial AAPL price observed as exactly 0.0
and every other role resolved, the session ends in the missing-data outcome —
no computation-error outcome distinct from the missing-data failure is
surfaced, and the price-return step is never aborted because it never runs. -/
theorem claim_C3_cex :
    mZeroC.aapl_init = some 0 ∧ finishSession mZeroC = SessionOutcome.missingData :=
  ⟨rfl, rfl⟩

/-- C3 (amended): a zero initial price never reaches the price-return or
dividend-yield steps: the truthiness-based completeness gate classifies a 0.0
observation as missing data, so whenever the gate passes both initial prices
are nonzero and every calculation step succeeds — no infinity or NaN is
produced or passed downstream to compare, but no computation error distinct
from the missing-data failure is ever surfaced either. -/
theorem claim_C3 (m : StockMetrics) (h : isComplete m = true) :
    m.aapl_init ≠ some 0 ∧ m.msft_init ≠ some 0 ∧
    ∃ p, finishSession m = SessionOutcome.success p := by
  have h' := h
  simp only [isComplete, Bool.and_eq_true] at h'
  obtain ⟨⟨⟨⟨⟨h1, h2⟩, h3⟩, h4⟩, h5⟩, h6⟩ := h'
  exact ⟨((truthy_eq_true _).mp h1).2, ((truthy_eq_true _).mp h3).2,
    finishSession_success m h⟩

/-- C3 (witness): the amended statement applied at a concrete complete
metrics state. -/
theorem claim_C3_witness :
    isComplete mFullC = true ∧
    (mFullC.aapl_init ≠ some 0 ∧ mFullC.msft_init ≠ some 0 ∧
      ∃ p, finishSession mFullC = SessionOutcome.success p) :=
  ⟨rfl, claim_C3 mFullC rfl⟩

/-- C4 (counterexample): at an exact tie the claimed antisymmetry fails:
with equal returns, `compare("AAPL", 1, "MSFT", 1)` names MSFT (the second
operand) while the swapped call names AAPL, so "AAPL wins" holds on one side
of the iff and not the other. -/
theorem claim_C4_cex :
    ¬((compareWinner "AAPL" 1 "MSFT" 1 = "AAPL") ↔
      (compareWinner "MSFT" 1 "AAPL" 1 = "AAPL")) := by
  simp [compareWinner]

/-- C4 (amended): swapping the two operands never changes the winner when the
two returns differ; on an exact tie the strict `diff > 0` test always names
the second operand, so swapping the operands flips the winner. -/
theorem claim_C4 :
    (∀ (A : String) (x : ℚ) (B : String) (y : ℚ), x ≠ y →
      (compareWinner A x B y = A ↔ compareWinner B y A x = A)) ∧
    (∀ (A : String) (x : ℚ) (B : String),
      compareWinner A x B x = B ∧ compareWinner B x A x = A) := by
  constructor
  · intro A x B y hxy
    rcases lt_or_gt_of_ne hxy with hlt | hgt
    · simp [compareWinner, sub_pos, hlt, hlt.not_lt]
    · simp [compareWinner, sub_pos, hgt, hgt.not_lt]
  · intro A x B
    constructor <;> simp [compareWinner]

/-- C4 (witness): the amended antisymmetry applied at distinct concrete
returns. -/
theorem claim_C4_witness :
    (2 : ℚ) ≠ 1 ∧
    (compareWinner "AAPL" 2 "MSFT" 1 = "AAPL" ↔ compareWinner "MSFT" 1 "AAPL" 2 = "AAPL") :=
  ⟨by norm_num, claim_C4.1 "AAPL" 2 "MSFT" 1 (by norm_num)⟩

/-- C5 (counterexample): the compare endpoint's response carries the single
key "summary"; no structured winner or margin field accompanies it. -/
theorem claim_C5_cex :
    (compare "AAPL" 22 "MSFT" (13/2)).map Prod.fst = ["summary"] ∧
    "winner" ∉ (compare "AAPL" 22 "MSFT" (13/2)).map Prod.fst ∧
    "margin" ∉ (compare "AAPL" 22 "MSFT" (13/2)).map Prod.fst := by
  refine ⟨rfl, ?_, ?_⟩ <;> simp [compare]

/-- C5 (amended): compare names as winner the stock with the strictly larger
total return, resolves an exact tie toward the second ("B") operand, and
embeds that winner together with the absolute difference of the returns,
two-decimal formatted, in a human-readable summary string — which is the
response's only field: no structured winner/margin payload is delivered. -/
theorem claim_C5 (A : String) (x : ℚ) (B : String) (y : ℚ) :
    compare A x B y =
      [("summary", winnerSpec A x B y ++ " outperformed by " ++ fmt2 |x - y| ++
        "%. Total returns were: " ++ A ++ " = " ++ fmt2 x ++ "%, " ++ B ++ " = " ++
        fmt2 y ++ "%.")] ∧
    (compare A x B y).map Prod.fst = ["summary"] := by
  refine ⟨?_, rfl⟩
  simp [compare, compareSummary, compareWinner, winnerSpec, sub_pos]

/-- C8: the price-return endpoint computes exactly
`(final_price - initial_price) / initial_price * 100` whenever the initial
price is nonzero, and the session's calculation chain applies that formula to
each ticker independently. -/
theorem claim_C8 :
    (∀ initial_price final_price : ℚ, initial_price ≠ 0 →
      calc_price_return initial_price final_price =
        Except.ok ((final_price - initial_price) / initial_price * 100)) ∧
    (∀ a1 a2 b1 b2 ad bd : ℚ, a1 ≠ 0 → b1 ≠ 0 →
      runChain a1 a2 b1 b2 ad bd =
        Except.ok (compare "AAPL" ((a2 - a1) / a1 * 100 + ad / a1 * 100)
          "MSFT" ((b2 - b1) / b1 * 100 + bd / b1 * 100))) :=
  ⟨fun _ f h => by simp [calc_price_return, h],
   fun a1 a2 b1 b2 ad bd ha hb => runChain_ok a1 a2 b1 b2 ad bd ha hb⟩

/-- C8 (witness): the formula at the spec's end-to-end AAPL prices, and the
chain at both tickers' values. -/
theorem claim_C8_witness :
    ((100 : ℚ) ≠ 0 ∧
      calc_price_return 100 120 = Except.ok ((120 - 100) / 100 * 100)) ∧
    ((200 : ℚ) ≠ 0 ∧
      runChain 100 120 200 210 2 3 =
        Except.ok (compare "AAPL" ((120 - 100) / 100 * 100 + 2 / 100 * 100)
          "MSFT" ((210 - 200) / 200 * 100 + 3 / 200 * 100))) :=
  ⟨⟨by norm_num, claim_C8.1 100 120 (by norm_num)⟩,
   ⟨by norm_num, claim_C8.2 100 120 200 210 2 3 (by norm_num) (by norm_num)⟩⟩

/-- C9: extraction tolerates partial payloads: entries without a snippet
field are skipped without changing the result, an error payload with no
`organic_results` key yields absent, and on every payload the function
totally returns a value or absent — a failed search degrades to an absent
observation rather than a crash. -/
theorem claim_C9 :
    (∀ p : SearchPayload,
      extract_price_or_dividend
          ⟨some ((p.organic_results.getD []).filter (fun e => e.snippet.isSome))⟩ =
        extract_price_or_dividend p) ∧
    extract_price_or_dividend errorPayload = none ∧
    (∀ p : SearchPayload,
      extract_price_or_dividend p = none ∨ ∃ v, extract_price_or_dividend p = some v) := by
  refine ⟨?_, rfl, ?_⟩
  · intro p
    simp [extract_price_or_dividend, joinSnippets, filterMap_snippet_filter]
  · intro p
    cases h : extract_price_or_dividend p with
    | none => exact Or.inl rfl
    | some v => exact Or.inr ⟨v, rfl⟩

/-- C6: extraction concatenates the organic snippets in order, scans the blob
for the currency pattern and returns the first match as a number: with the
sole snippet "price rose to \x7b$123.45\x7d"-free text it returns 123.45, with
zero organic results it returns absent, and of several amounts the first in
document order wins. -/
theorem claim_C6 :
    (∀ p : SearchPayload,
      extract_price_or_dividend p = scanDollar (joinSnippets p).toList) ∧
    extract_price_or_dividend ⟨some [⟨some "price rose to $123.45 yesterday"⟩]⟩ =
      some (2469/20 : ℚ) ∧
    extract_price_or_dividend ⟨some []⟩ = none ∧
    extract_price_or_dividend
        ⟨some [⟨some "first $10 here"⟩, ⟨some "then $20 there"⟩]⟩ = some 10 := by
  refine ⟨fun _ => rfl, ?_, rfl, ?_⟩
  · simp [extract_price_or_dividend, joinSnippets, scanDollar, currencyValue, digitsToNat]
    try norm_num
  · simp [extract_price_or_dividend, joinSnippets, scanDollar, currencyValue, digitsToNat]
    try norm_num

/-- C7: within a single search call the extraction at query position 0 lands
in `aapl_init`, 1 in `aapl_final`, 2 in `msft_init`, 3 in `msft_final`, 4 in
`aapl_div`, 5 in `msft_div`; a position whose extraction failed leaves its
role absent, and positions from six on change no slot. -/
theorem claim_C7 :
    (∀ items : List SearchPayload,
      processSearchResult emptyMetrics items =
        ⟨(items.get? 0).elim none extract_price_or_dividend,
         (items.get? 1).elim none extract_price_or_dividend,
         (items.get? 2).elim none extract_price_or_dividend,
         (items.get? 3).elim none extract_price_or_dividend,
         (items.get? 4).elim none extract_price_or_dividend,
         (items.get? 5).elim none extract_price_or_dividend⟩) ∧
    (∀ (m : StockMetrics) (items rest : List SearchPayload), items.length = 6 →
      processSearchResult m (items ++ rest) = processSearchResult m items) := by
  constructor
  · intro items
    exact processSearchResult_eq emptyMetrics items
  · intro m items rest hlen
    rcases items with _ | ⟨p0, _ | ⟨p1, _ | ⟨p2, _ | ⟨p3, _ | ⟨p4, _ | ⟨p5, tail⟩⟩⟩⟩⟩⟩ <;>
      simp only [List.length, List.length_nil, List.length_cons] at hlen
    · omega
    · omega
    · omega
    · omega
    · omega
    · omega
    · have htail : tail = [] := by
        rw [← List.length_eq_zero]
        omega
      subst htail
      simp only [List.cons_append, List.nil_append, processSearchResult, processItems]
      exact processItems_high rest _ 6 le_rfl

/-- C7 (witness): a seventh payload appended to a six-query search call
changes nothing. -/
theorem claim_C7_witness :
    sixPayloads.length = 6 ∧
    processSearchResult emptyMetrics (sixPayloads ++ [errorPayload]) =
      processSearchResult emptyMetrics sixPayloads :=
  ⟨rfl, claim_C7.2 emptyMetrics sixPayloads [errorPayload] rfl⟩

/-- C10 (counterexample): the first search call resolves position 0 to 100,
the second call's position-0 extraction fails, yet the final metrics hold
absent in `aapl_init` — the later call overwrote the earlier value even
though it produced no value, contradicting the claim that the last call
producing a non-absent value wins. -/
theorem claim_C10_cex :
    extract_price_or_dividend payloadHundred = some 100 ∧
    extract_price_or_dividend payloadNoMatch = none ∧
    (processAllSearches emptyMetrics [[payloadHundred], [payloadNoMatch]]).aapl_init = none := by
  refine ⟨?_, rfl, rfl⟩
  simp [payloadHundred, extract_price_or_dividend, joinSnippets, scanDollar,
    currencyValue, digitsToNat]
  try norm_num

/-- C10 (amended): slot assignment depends only on an item's position inside
its own call's result list, and a later search call's extraction at position
i overwrites the earlier value unconditionally — also when that extraction
failed — so each role ends as the extraction result of the last search call
whose result list reaches its position (absent when that extraction failed or
when no call reached the position). -/
theorem claim_C10 (resultLists : List (List SearchPayload)) (i : Nat) (hi : i < 6) :
    roleGet (processAllSearches emptyMetrics resultLists) i =
      (lastSlotPayload resultLists i).bind extract_price_or_dividend := by
  induction resultLists using List.reverseRecOn with
  | nil => interval_cases i <;> rfl
  | append_singleton ls l ih =>
    have hstep : processAllSearches emptyMetrics (ls ++ [l]) =
        processSearchResult (processAllSearches emptyMetrics ls) l := by
      simp [processAllSearches, List.foldl_append]
    rw [hstep, roleGet_processSearchResult _ _ i hi, ih]
    simp only [lastSlotPayload, List.reverse_append, List.reverse_singleton,
      List.singleton_append]
    by_cases hlen : i < l.length
    · rw [List.find?_cons_of_pos _ (by simpa using hlen)]
      simp [List.get?_eq_getElem?, List.getElem?_eq_getElem hlen]
    · rw [List.find?_cons_of_neg _ (by simpa using hlen),
        List.get?_eq_none.mpr (Nat.le_of_not_lt hlen)]
      rfl

/-- C10 (witness): the amended characterization at the two-call
counterexample scenario and role 0. -/
theorem claim_C10_witness :
    (0 : Nat) < 6 ∧
    roleGet (processAllSearches emptyMetrics [[payloadHundred], [payloadNoMatch]]) 0 =
      (lastSlotPayload [[payloadHundred], [payloadNoMatch]] 0).bind extract_price_or_dividend :=
  ⟨by decide, claim_C10 [[payloadHundred], [payloadNoMatch]] 0 (by decide)⟩

end StockAgent
